import Mathlib

/-!
Verification of the Slack codebase-query bot (query orchestration and
session-memory subsystem) against its natural-language specification.

The Python sources are shallowly embedded as executable Lean definitions:

* `memory_manager.py` / `lambda_memory.py` — `MemoryManager`,
  `LambdaMemoryManager.get_session_id`; the Python dict of conversations is
  modelled as a total function `String → List Message` whose default value is
  `[]` (this matches `dict.get(sid, [])` and the create-if-absent idiom).
* `query_service.py` — `_is_oncall_or_issue`, the cursor prompts,
  `query_codebase`.  External effects (the spawned `cursor-agent` process,
  `json.loads`, the completion API, the wall clock) are supplied by a `World`
  oracle; filesystem `chmod` calls and process management are recorded as an
  event trace so that the permission-restoration discipline can be stated.
  Elapsed times are modelled as `Nat` milliseconds (the clock is assumed
  non-decreasing).
* `ai_service.py` — `process_with_ai` with the completion call supplied as an
  oracle `String → ApiOutcome`.
* `slack_bot.py` — `process_query`, with the analysis invocation abstracted as
  an oracle from the rendered conversation context to a `QueryResult`.

Python string operations (`lower`, `strip`, substring `in`, `"\n".join`,
slicing `lst[-k:]`) are reimplemented over `List Char` faithfully to Python's
semantics on the ASCII range, including the `lst[-0:] == lst` quirk and
truthiness of empty strings.
-/

/-! ### Python-style character and string helpers -/

/-- Whitespace characters recognised by Python's `str.strip` (ASCII range):
space, tab, newline, carriage return, vertical tab, form feed. -/
def isPySpace (c : Char) : Bool :=
  c.toNat = 32 || c.toNat = 9 || c.toNat = 10 || c.toNat = 13 ||
    c.toNat = 11 || c.toNat = 12

/-- Python `str.lower` on one character, ASCII range (`A`-`Z` map to
`a`-`z`, everything else is unchanged). -/
def pyLowerChar (c : Char) : Char :=
  if 65 ≤ c.toNat ∧ c.toNat ≤ 90 then Char.ofNat (c.toNat + 32) else c

/-- Python `str.lower` (ASCII model). -/
def pyLower (s : String) : String :=
  String.mk (s.toList.map pyLowerChar)

/-- Strip `isPySpace` characters from both ends of a character list. -/
def stripChars (l : List Char) : List Char :=
  (((l.dropWhile isPySpace).reverse.dropWhile isPySpace).reverse)

/-- Python `str.strip`. -/
def pyStrip (s : String) : String :=
  String.mk (stripChars s.toList)

/-- `leadMatch needle haystack` holds when `needle` is an initial run of
`haystack`. -/
def leadMatch : List Char → List Char → Bool
  | [], _ => true
  | _ :: _, [] => false
  | a :: as, b :: bs => a == b && leadMatch as bs

/-- `hasRun needle haystack`: `needle` occurs contiguously in `haystack`
(Python's substring operator `in`). -/
def hasRun (n : List Char) : List Char → Bool
  | [] => leadMatch n []
  | c :: rest => leadMatch n (c :: rest) || hasRun n rest

/-- Python `needle in haystack` on strings. -/
def pyInStr (needle haystack : String) : Bool :=
  hasRun needle.toList haystack.toList

/-- Python `a or b` on strings (`""` is falsy). -/
def pyOrStr (a b : String) : String :=
  if a = "" then b else a

/-- Python `"\n".join`. -/
def joinLines : List String → String
  | [] => ""
  | [x] => x
  | x :: xs => x ++ "\n" ++ joinLines xs

/-- Split a character list at newline characters (used only to state line
counting properties about rendered contexts). -/
def splitOnNL : List Char → List (List Char)
  | [] => [[]]
  | c :: rest =>
      let r := splitOnNL rest
      if c == '\n' then [] :: r
      else
        match r with
        | [] => [[c]]
        | x :: xs => (c :: x) :: xs

/-- Number of lines of `s` that start with `label`. -/
def labelLineCount (label s : String) : Nat :=
  ((splitOnNL s.toList).filter (fun line => leadMatch label.toList line)).length

/-! ### Session memory store (`memory_manager.py`, `lambda_memory.py`) -/

/-- One conversation turn: `{'role': ..., 'content': ..., 'timestamp': ...}`.
The `time.time()` float is modelled as a `Nat`. -/
structure Message where
  role : String
  content : String
  timestamp : Nat
deriving DecidableEq, Repr

/-- `MemoryManager.__init__`: `conversations` is the session dict (total
function with default `[]`), `max_messages` the retention bound. -/
structure MemoryManager where
  conversations : String → List Message
  max_messages : Nat

/-- A freshly constructed `MemoryManager(max_messages)`. -/
def emptyManager (max_messages : Nat) : MemoryManager :=
  ⟨fun _ => [], max_messages⟩

/-- `MemoryManager.get_session_id`: `str(thread_ts)` — the thread timestamp
itself (already a string) is the session key. -/
def MemoryManager.get_session_id (thread_ts : String) : String :=
  thread_ts

/-- `MemoryManager.get_context`: `self.conversations.get(session_id, [])`. -/
def MemoryManager.get_context (m : MemoryManager) (session_id : String) :
    List Message :=
  m.conversations session_id

/-- Python slice `l[-k:]` on a list.  Note the quirk: `-0 == 0`, so for
`k = 0` the slice is `l[0:] = l`, not the empty list. -/
def pySliceLastNeg (l : List Message) (k : Nat) : List Message :=
  if k = 0 then l else l.drop (l.length - k)

/-- The truncation step of `add_message`: keep the list as is while its
length is within `max_messages`, otherwise `l[-max_messages:]`. -/
def pyClip (max_messages : Nat) (l : List Message) : List Message :=
  if max_messages < l.length then pySliceLastNeg l max_messages else l

/-- `MemoryManager.add_message`: append a turn with the current timestamp,
then truncate from the beginning when the bound is exceeded. -/
def MemoryManager.add_message (m : MemoryManager)
    (session_id role content : String) (timestamp : Nat) : MemoryManager :=
  let msgs := m.conversations session_id ++ [⟨role, content, timestamp⟩]
  let msgs := pyClip m.max_messages msgs
  { m with conversations := fun s => if s = session_id then msgs else m.conversations s }

/-- `MemoryManager.get_formatted_context`: render each turn as a
`User: ...` / `Assistant: ...` line and join with newlines (empty string for
an empty or unknown session). -/
def MemoryManager.get_formatted_context (m : MemoryManager)
    (session_id : String) : String :=
  let messages := m.get_context session_id
  match messages with
  | [] => ""
  | _ =>
      joinLines (messages.map (fun msg =>
        (if msg.role = "user" then "User" else "Assistant") ++ ": " ++ msg.content))

/-- `MemoryManager.clear_session`: deleting the key is observationally the
same as resetting it to the default `[]`. -/
def MemoryManager.clear_session (m : MemoryManager) (session_id : String) :
    MemoryManager :=
  { m with conversations := fun s => if s = session_id then [] else m.conversations s }

/-- `LambdaMemoryManager.get_session_id`: `user_id:channel_id:thread_ts`,
falling back to `channel_id` when `thread_ts` is absent or empty (Python
`if not thread_ts`). -/
def LambdaMemoryManager.get_session_id (user_id channel_id : String)
    (thread_ts : Option String) : String :=
  let t := match thread_ts with
    | none => channel_id
    | some s => if s = "" then channel_id else s
  user_id ++ ":" ++ channel_id ++ ":" ++ t

/-- Fold a list of `(role, content, timestamp)` entries into the store with
`add_message`, in order. -/
def addAll (m : MemoryManager) (session_id : String)
    (entries : List (String × String × Nat)) : MemoryManager :=
  entries.foldl (fun acc e => acc.add_message session_id e.1 e.2.1 e.2.2) m

/-- The `Message` built from one `addAll` entry. -/
def mkMessage (e : String × String × Nat) : Message :=
  ⟨e.1, e.2.1, e.2.2⟩

/-! ### Intent classifier (`query_service._is_oncall_or_issue`) -/

/-- The fixed trigger-substring set of `_is_oncall_or_issue`, in source
order. -/
def triggers : List String :=
  ["oncall", "on-call", "on call", "issue", "fix", "error", "incident", "bug", "broken"]

/-- `_is_oncall_or_issue`: empty or whitespace-only queries are not oncall;
otherwise check the lower-cased, stripped query for any trigger substring. -/
def _is_oncall_or_issue (query : String) : Bool :=
  if query = "" || pyStrip query = "" then false
  else
    let q := pyStrip (pyLower query)
    triggers.any (fun t => pyInStr t q)

/-! ### Python JSON values (`json.loads` results, `json.dumps`)

`json.loads` itself is an external library call; its result on this code
path is modelled as a JSON object (`cursor-agent --output-format json`
emits an object per the external-interface contract), or a decode error. -/

/-- A Python value as produced by `json.loads`. -/
inductive PyJson where
  | null
  | bool (b : Bool)
  | num (n : Int)
  | str (s : String)
  | arr (xs : List PyJson)
  | obj (fields : List (String × PyJson))

/-- Python `v == s` for a JSON value against a string literal: true exactly
when `v` is that string. -/
def PyJson.eqStr (v : PyJson) (s : String) : Bool :=
  match v with
  | .str t => t == s
  | _ => false

/-- Python `dict.get(k)`: the stored value, or `None` when the key is
absent (JSON objects have unique keys). -/
def dictGet (fields : List (String × PyJson)) (k : String) : PyJson :=
  match fields.find? (fun p => p.1 == k) with
  | some p => p.2
  | none => .null

/-- Python truthiness of a JSON value. -/
def pyTruthy : PyJson → Bool
  | .null => false
  | .bool b => b
  | .num n => n ≠ 0
  | .str s => s ≠ ""
  | .arr xs => !xs.isEmpty
  | .obj fs => !fs.isEmpty

/-- Python `a or b` on JSON values. -/
def pyOr (a b : PyJson) : PyJson :=
  if pyTruthy a then a else b

/-- Escape one character for a JSON string literal. -/
def escapeJsonChar (c : Char) : String :=
  if c == '\"' then "\\\""
  else if c == '\\' then "\\\\"
  else if c == '\n' then "\\n"
  else if c == '\t' then "\\t"
  else if c == '\r' then "\\r"
  else String.mk [c]

/-- Escape a string for a JSON string literal. -/
def escapeJsonStr (s : String) : String :=
  String.join (s.toList.map escapeJsonChar)

/-- `k` spaces of indentation. -/
def indentSpaces (k : Nat) : String :=
  String.mk (List.replicate k ' ')

mutual

/-- `json.dumps(v, indent=2)` (ASCII model), at indentation `ind`. -/
def dumpJson (ind : Nat) : PyJson → String
  | .null => "null"
  | .bool true => "true"
  | .bool false => "false"
  | .num n => toString n
  | .str s => "\"" ++ escapeJsonStr s ++ "\""
  | .arr [] => "[]"
  | .arr (x :: xs) =>
      "[\n" ++ dumpArrItems (ind + 2) (x :: xs) ++ "\n" ++ indentSpaces ind ++ "]"
  | .obj [] => "\x7b\x7d"
  | .obj (f :: fs) =>
      "\x7b\n" ++ dumpObjItems (ind + 2) (f :: fs) ++ "\n" ++ indentSpaces ind ++ "\x7d"

/-- Array items, one per line, comma-separated. -/
def dumpArrItems (ind : Nat) : List PyJson → String
  | [] => ""
  | [x] => indentSpaces ind ++ dumpJson ind x
  | x :: y :: xs =>
      indentSpaces ind ++ dumpJson ind x ++ ",\n" ++ dumpArrItems ind (y :: xs)

/-- Object fields, one per line, comma-separated. -/
def dumpObjItems (ind : Nat) : List (String × PyJson) → String
  | [] => ""
  | [f] => indentSpaces ind ++ "\"" ++ escapeJsonStr f.1 ++ "\": " ++ dumpJson ind f.2
  | f :: g :: fs =>
      indentSpaces ind ++ "\"" ++ escapeJsonStr f.1 ++ "\": " ++ dumpJson ind f.2 ++
        ",\n" ++ dumpObjItems ind (g :: fs)

end

/-- The text a Python value contributes when interpolated or returned as a
response.  String values pass through unchanged (the only case the running
system produces); other values are rendered. -/
def pyToStr : PyJson → String
  | .str s => s
  | .num n => toString n
  | .bool true => "True"
  | .bool false => "False"
  | .null => "None"
  | v => dumpJson 0 v

/-! ### AI service (`ai_service.process_with_ai`) -/

/-- Outcome of the completion-API call: the client raises, or returns a
response whose choices list carries each choice's message content. -/
inductive ApiOutcome where
  | raises (msg : String)
  | returns (choices : List String)
deriving DecidableEq, Repr

/-- Head of the `mode == "oncall"` prompt of `process_with_ai`, up to the
quoted user query. -/
def AI_ONCALL_HEAD : String :=
  "\nYou are formatting a fix guide for a developer handling an oncall or production issue.\n\nGoal:\nTurn the codebase query response below into a clear, actionable fix guide. Structure your response as:\n\n1. STEPS TO FIX: What the developer should do, in order (numbered steps).\n2. FILES AND FUNCTIONS TO CHECK: List specific file paths and function/class names with a one-line note on what to look for or why it matters.\n3. TODO: A short checklist the dev can follow to resolve the issue.\n\nInclude actual file paths and function names. If the codebase tool asked a clarifying question, pass that question to the user as your response instead.\n\nA user asked: \""

/-- Head of the default (product/stakeholder) prompt of `process_with_ai`,
up to the quoted user query. -/
def AI_DEFAULT_HEAD : String :=
  "\nYou are a code-aware assistant for non-technical, product-focused stakeholders.\n\nGoal:\nExplain the system behavior described below in plain language.\nDo NOT show code or implementation details.\nIf the codebase query tool (cursor) has asked the user a clarifying question back, ask that question to the user again as your response.\n\nTwo-tier rule (decide silently before answering):\n\nUse TIER_2 ONLY if the user explicitly asks for detail (e.g. \"elaborate\", \"explain in detail\", \"step-by-step\", \"full flow\", \"conditions\").\nOtherwise, always use TIER_1.\n\nTIER_1 (default):\n- Brief and direct (max ~4-6 sentences)\n- Main takeaway only\n- No steps, no conditions, no branching logic\n- Do NOT mention API / endpoint / service names\n\nTIER_2 (on request):\n- Step-by-step flow in correct order\n- Conditions and branching allowed\n- Explain when and why steps happen\n- Mention API / endpoint / service names when relevant; for each, give a one-line explanation of what it does\n- Still no code\n\nAlways:\n- Describe behavior as system actions, not code\n- Avoid phrases like “the code does” or “this function”\n- Do not mix TIER_1 and TIER_2 styles\n\nA user asked: \""

/-- The prompt segment between the quoted user query and the raw response. -/
def AI_MID : String :=
  "\"\n\nThe codebase query tool returned the following response:\n\n"

/-- Opening of the optional conversation-history block. -/
def AI_HISTORY_A : String :=
  "\n\nConversation History:\n"

/-- Closing instruction of the conversation-history block. -/
def AI_HISTORY_B : String :=
  "\n\nUse the conversation history to handle follow-up questions. If this is a follow-up, refer back to previous messages to give a coherent answer."

/-- Closing formatting instruction of the oncall prompt. -/
def AI_ONCALL_TAIL : String :=
  "\n\nFormat the fix guide clearly. Use plain text only (no markdown): line breaks and spacing for structure. If the response is unclear or incomplete, say so and give the best guidance you can."

/-- Closing formatting instruction of the default prompt. -/
def AI_DEFAULT_TAIL : String :=
  "\n\nProvide a clear, concise answer to the user's question based on the information above.\n\nFORMATTING (for Slack, plain text only):\n- No markdown: no ### headers, ** bold, or asterisks/hashes/backticks for formatting.\n- Use line breaks and spacing for structure. For code references: plain text or inline only; do not wrap in backticks.\n\nIf the response is unclear or incomplete, say so and explain what you can infer."

/-- The advisory suffix appended when the completion API raises. -/
def aiUnavailableNote : String :=
  "\n\n[Note: AI processing unavailable, showing raw response]"

/-- The single-message prompt `process_with_ai` sends to the completion
API: mode-selected head, quoted query, raw response, optional history block
(skipped for `None` or empty history — Python truthiness), mode-selected
tail. -/
def buildPrompt (raw_response user_query : String)
    (conversation_context : Option String) (mode : Option String) : String :=
  let base :=
    if mode = some "oncall" then AI_ONCALL_HEAD ++ user_query ++ AI_MID ++ raw_response
    else AI_DEFAULT_HEAD ++ user_query ++ AI_MID ++ raw_response
  let base :=
    match conversation_context with
    | some c => if c = "" then base else base ++ AI_HISTORY_A ++ c ++ AI_HISTORY_B
    | none => base
  if mode = some "oncall" then base ++ AI_ONCALL_TAIL else base ++ AI_DEFAULT_TAIL

/-- `process_with_ai`: call the completion API with the built prompt; return
the first choice's content, the bare raw response when there are no
choices, or the raw response plus the advisory note when the call raises. -/
def process_with_ai (raw_response user_query : String)
    (conversation_context : Option String) (mode : Option String)
    (api : String → ApiOutcome) : String :=
  match api (buildPrompt raw_response user_query conversation_context mode) with
  | .raises _ => raw_response ++ aiUnavailableNote
  | .returns [] => raw_response
  | .returns (c :: _) => c

/-! ### Codebase query service (`query_service.query_codebase`) -/

/-- The audience preamble sent to `cursor-agent` for default (product /
stakeholder) queries. -/
def CURSOR_AUDIENCE_PROMPT : String :=
  "\nYou are a code-aware assistant for non-technical, product-focused stakeholders.\n\nCrux: Plain language only, no code. Default = brief (8-10 sentences, main takeaway). \nIf they ask for detail, give step-by-step. Describe system behavior; explain any api/function name you mention in short keeping in mind the user does not have codebase access.\n\nGoal:\nExplain the system behavior described below in plain language. If you find question ambiguous, ask back questions (only if needed).\n\nUser question:\n"

/-- The preamble sent to `cursor-agent` for the oncall/issue flow. -/
def CURSOR_ONCALL_PROMPT : String :=
  "\nThe user is asking about an oncall or production issue and needs a short, scannable fix guide for a developer.\n\nGoal: Search the codebase and return a concise fix guide. Keep it brief so a dev can act quickly.\n\nStructure your answer as:\n1. STEPS TO FIX: Max 5 steps, one line each. Put the most likely fix first; \"if that fails\" checks after.\n2. FILES AND FUNCTIONS TO CHECK: Max 4–5 entries (path + function/method + one-line why).\n3. TODO: Max 4 actionable items (e.g. confirm X, run Y). Put tech-debt (e.g. add Sentry) in a short FOLLOW-UP at the end.\n\nUse actual file paths and function/class names. Be specific but concise.\n\nUser question:\n"

/-- The enhanced query sent to `cursor-agent`: mode-selected preamble, the
user query, and — when a non-empty conversation context is supplied
(Python truthiness) — the previous-conversation block. -/
def enhancedQuery (query : String) (conversation_context : Option String) : String :=
  let cursor_prompt :=
    if _is_oncall_or_issue query then CURSOR_ONCALL_PROMPT else CURSOR_AUDIENCE_PROMPT
  let base := cursor_prompt ++ query
  match conversation_context with
  | some c => if c = "" then base else base ++ "\n\nPrevious conversation:\n" ++ c
  | none => base

/-- The argument vector of the spawned `cursor-agent` process (no shell;
the query is the final single argument). -/
def cursorArgs (query repository_path cursor_model : String)
    (conversation_context : Option String) : List String :=
  ["cursor-agent", "--print", "--output-format", "json", "--model", cursor_model,
    "--workspace", repository_path, enhancedQuery query conversation_context]

/-- What the spawned analysis process does: run to completion with an exit
code and captured output streams, exceed the timeout, or fail with some
other exception while being spawned or awaited. -/
inductive ProcBehavior where
  | completes (returncode : Int) (stdoutData stderrData : String)
  | timesOut
  | raises (msg : String)
deriving DecidableEq, Repr

/-- Externally visible events of one `query_codebase` run: the recursive
`chmod a-w` (lock) and `chmod u+w` (unlock) on the repository, the process
spawn with its argument vector and working directory, and the kill on
timeout. -/
inductive FsEvent where
  | lock (path : String)
  | unlock (path : String)
  | spawn (args : List String) (cwd : String)
  | kill
deriving DecidableEq, Repr

/-- `true` exactly for the write-permission restoration on `p`. -/
def restoresWrite (p : String) : FsEvent → Bool
  | .unlock q => q == p
  | _ => false

/-- `true` exactly for process-spawn events. -/
def isSpawn : FsEvent → Bool
  | .spawn _ _ => true
  | _ => false

/-- The external world of one `query_codebase` invocation: the process
behaviour, `json.loads` on the stripped standard output (`none` models
`json.JSONDecodeError`; a successful parse yields the fields of the JSON
object), the completion-API behaviour, and the elapsed milliseconds
measured after `communicate` returns (`elapsedRun`) and inside the
exception handlers (`elapsedErr`). -/
structure World where
  behavior : ProcBehavior
  parse : String → Option (List (String × PyJson))
  api : String → ApiOutcome
  elapsedRun : Nat
  elapsedErr : Nat

/-- The dictionary `query_codebase` returns: `success` with `response` on
success, `error` on failure; `executionTime` in milliseconds either way. -/
inductive QueryResult where
  | ok (response : String) (executionTime : Nat)
  | err (error : String) (executionTime : Nat)
deriving DecidableEq, Repr

/-- `true` on the `success: True` shape. -/
def QueryResult.isSuccess : QueryResult → Bool
  | .ok _ _ => true
  | .err _ _ => false

/-- The raw-text extraction of `query_codebase` on exit code 0, exactly as
in the source: try `json.loads` on the stripped stdout; on success take
`result` when `type == 'result'`, else the first truthy of `response`,
`content`, `text`, else `json.dumps(parsed, indent=2)`, and replace a falsy
choice by `"No response"`; on decode error fall back to stripped stdout,
else stripped stderr, else `"Empty response"`. -/
def rawFromStdout (stdoutData stderrData : String)
    (parse : String → Option (List (String × PyJson))) : String :=
  match parse (pyStrip stdoutData) with
  | some fields =>
      let raw :=
        if (dictGet fields "type").eqStr "result" then dictGet fields "result"
        else
          pyOr (dictGet fields "response")
            (pyOr (dictGet fields "content")
              (pyOr (dictGet fields "text") (.str (dumpJson 0 (.obj fields)))))
      pyToStr (pyOr raw (.str "No response"))
  | none => pyOrStr (pyStrip stdoutData) (pyOrStr (pyStrip stderrData) "Empty response")

/-- `query_codebase`: lock the repository (when enforcement is on), spawn
`cursor-agent`, wait up to the timeout, extract and format the response on
exit 0, fail with the captured stderr or exit code otherwise, convert a
timeout into `Query timeout after <ms>ms` and any other exception into
`Failed to execute cursor-agent: ...`; the `finally` block always appends
the write-permission restoration.  Returns the result and the event
trace. -/
def query_codebase (query repository_path : String) (timeout : Nat)
    (conversation_context : Option String) (cursor_model : String)
    (enforce : Bool) (w : World) : QueryResult × List FsEvent :=
  let lockEvents := if enforce then [FsEvent.lock repository_path] else []
  let unlockEvents := if enforce then [FsEvent.unlock repository_path] else []
  let args := cursorArgs query repository_path cursor_model conversation_context
  match w.behavior with
  | .raises msg =>
      (.err ("Failed to execute cursor-agent: " ++ msg) w.elapsedErr,
        lockEvents ++ unlockEvents)
  | .timesOut =>
      (.err ("Query timeout after " ++ toString timeout ++ "ms") w.elapsedErr,
        lockEvents ++ [FsEvent.spawn args repository_path, FsEvent.kill] ++ unlockEvents)
  | .completes rc stdoutData stderrData =>
      if rc = 0 then
        let raw_response := rawFromStdout stdoutData stderrData w.parse
        let processed := process_with_ai raw_response query conversation_context
          (if _is_oncall_or_issue query then some "oncall" else none) w.api
        (.ok processed w.elapsedRun,
          lockEvents ++ [FsEvent.spawn args repository_path] ++ unlockEvents)
      else
        (.err (pyOrStr stderrData ("Process exited with code " ++ toString rc)) w.elapsedRun,
          lockEvents ++ [FsEvent.spawn args repository_path] ++ unlockEvents)

/-! ### Slack bot orchestration (`slack_bot.process_query`) -/

/-- The fields of an inbound Slack event that `process_query` reads. -/
structure SlackEvent where
  channel : String
  ts : String
  thread_ts : Option String
deriving DecidableEq, Repr

/-- The session key `process_query` derives:
`event.get("thread_ts") or event.get("ts")` (Python `or`: an absent or
empty thread timestamp falls back to the message timestamp), passed through
`MemoryManager.get_session_id`. -/
def sessionOf (event : SlackEvent) : String :=
  MemoryManager.get_session_id
    (match event.thread_ts with
      | some s => if s = "" then event.ts else s
      | none => event.ts)

/-- What one `process_query` call produced: the updated store, the rendered
conversation context handed to the analysis invocation (`none` when the
empty-query early return fired), and the text sent back to Slack. -/
structure ProcessOutcome where
  store : MemoryManager
  contextSent : Option String
  reply : String

/-- `process_query`: reply with the helper message on an empty query;
otherwise record the user turn, render the context, invoke the analysis
(`analyze` stands for `query_codebase` applied to that context), and on
success record the assistant turn and reply with the response, on failure
reply with the error without recording an assistant turn.  The reaction
add/remove side effects are swallowed by the source and not modelled;
`tUser`/`tAsst` are the two `time.time()` readings. -/
def process_query (m : MemoryManager) (event : SlackEvent) (query : String)
    (empty_query_message : String) (analyze : String → QueryResult)
    (tUser tAsst : Nat) : ProcessOutcome :=
  if query = "" then ⟨m, none, empty_query_message⟩
  else
    let session_id := sessionOf event
    let m1 := m.add_message session_id "user" query tUser
    let conversation_context := m1.get_formatted_context session_id
    match analyze conversation_context with
    | .ok response _ =>
        ⟨m1.add_message session_id "assistant" response tAsst,
          some conversation_context, response⟩
    | .err e _ =>
        ⟨m1, some conversation_context, "Sorry, I encountered an error: " ++ e⟩

/-! ### Spec-side model for the raw-text extraction chain (claim C6)

This definition follows the words of the specification, not the code:
"take the `result` field when the payload's `type` is `result`, else
`response`, else `content`, else `text`, else a pretty-printed dump of the
whole payload, substituting the sentinel `No response` when the chosen
value is empty [Python-falsy]; if the JSON parse fails, take trimmed
standard output, else trimmed standard error, else the sentinel
`Empty response`."  It is compared with the source-side `rawFromStdout`. -/
def rawTextSpec (stdoutData stderrData : String)
    (parseResult : Option (List (String × PyJson))) : String :=
  match parseResult with
  | some payload =>
      let chosen : PyJson :=
        if (dictGet payload "type").eqStr "result" then dictGet payload "result"
        else if pyTruthy (dictGet payload "response") then dictGet payload "response"
        else if pyTruthy (dictGet payload "content") then dictGet payload "content"
        else if pyTruthy (dictGet payload "text") then dictGet payload "text"
        else PyJson.str (dumpJson 0 (.obj payload))
      if pyTruthy chosen then pyToStr chosen else "No response"
  | none =>
      if pyStrip stdoutData ≠ "" then pyStrip stdoutData
      else if pyStrip stderrData ≠ "" then pyStrip stderrData
      else "Empty response"

/-! ## Auxiliary lemmas -/

theorem string_mk_eq_empty_iff (l : List Char) : String.mk l = "" ↔ l = [] := by
  constructor
  · intro h
    have h2 := congrArg String.data h
    simpa using h2
  · rintro rfl
    rfl

theorem char_toNat_ofNat (n : Nat) (h : n < 55296) : (Char.ofNat n).toNat = n := by
  have hv : n.isValidChar := Or.inl h
  simp only [Char.ofNat, hv, dif_pos, Char.ofNatAux, Char.toNat]
  rfl

theorem isPySpace_pyLowerChar (c : Char) : isPySpace (pyLowerChar c) = isPySpace c := by
  unfold pyLowerChar
  by_cases h : 65 ≤ c.toNat ∧ c.toNat ≤ 90
  · obtain ⟨ha, hb⟩ := h
    rw [if_pos ⟨ha, hb⟩]
    have h1 : (Char.ofNat (c.toNat + 32)).toNat = c.toNat + 32 :=
      char_toNat_ofNat _ (by omega)
    have hA : isPySpace (Char.ofNat (c.toNat + 32)) = false := by
      simp only [isPySpace, h1, Bool.or_eq_false_iff, decide_eq_false_iff_not]
      omega
    have hB : isPySpace c = false := by
      simp only [isPySpace, Bool.or_eq_false_iff, decide_eq_false_iff_not]
      omega
    rw [hA, hB]
  · rw [if_neg h]

theorem forall_dropWhile_iff (p : Char → Bool) (l : List Char) :
    (∀ x ∈ l.dropWhile p, p x = true) ↔ (∀ x ∈ l, p x = true) := by
  induction l with
  | nil => simp
  | cons c cs ih => by_cases h : p c = true <;> simp [List.dropWhile_cons, h, ih]

theorem stripChars_eq_nil_iff (l : List Char) :
    stripChars l = [] ↔ ∀ c ∈ l, isPySpace c = true := by
  unfold stripChars
  rw [List.reverse_eq_nil_iff, List.dropWhile_eq_nil_iff]
  constructor
  · intro h
    rw [← forall_dropWhile_iff isPySpace l]
    intro x hx
    exact h x (by simpa using hx)
  · intro h x hx
    exact h x (List.dropWhile_subset isPySpace (by simpa using hx))

theorem leadMatch_iff (n h : List Char) :
    leadMatch n h = true ↔ ∃ rest, h = n ++ rest := by
  induction n generalizing h with
  | nil => simp [leadMatch]
  | cons a as ih =>
    cases h with
    | nil => simp [leadMatch]
    | cons b bs =>
      simp only [leadMatch, Bool.and_eq_true, beq_iff_eq, ih, List.cons_append,
        List.cons.injEq]
      constructor
      · rintro ⟨rfl, rest, rfl⟩
        exact ⟨rest, rfl, rfl⟩
      · rintro ⟨rest, rfl, rfl⟩
        exact ⟨rfl, rest, rfl⟩

theorem hasRun_iff (n h : List Char) :
    hasRun n h = true ↔ ∃ pre post, h = pre ++ (n ++ post) := by
  induction h with
  | nil =>
    simp only [hasRun, leadMatch_iff]
    constructor
    · rintro ⟨rest, hrest⟩
      exact ⟨[], rest, hrest⟩
    · rintro ⟨pre, post, hpp⟩
      cases pre with
      | nil => exact ⟨post, hpp⟩
      | cons x xs => simp at hpp
  | cons c rest ih =>
    simp only [hasRun, Bool.or_eq_true, leadMatch_iff, ih]
    constructor
    · rintro (⟨tail, htail⟩ | ⟨pre, post, hpp⟩)
      · exact ⟨[], tail, htail⟩
      · exact ⟨c :: pre, post, by simp [hpp]⟩
    · rintro ⟨pre, post, hpp⟩
      cases pre with
      | nil => exact Or.inl ⟨post, hpp⟩
      | cons x xs =>
        simp only [List.cons_append, List.cons.injEq] at hpp
        exact Or.inr ⟨xs, post, hpp.2⟩

theorem length_pyClip (k : Nat) (hk : 1 ≤ k) (l : List Message) :
    (pyClip k l).length = min k l.length := by
  unfold pyClip pySliceLastNeg
  by_cases h : k < l.length
  · rw [if_pos h, if_neg (by omega)]
    simp only [List.length_drop]
    omega
  · rw [if_neg h]
    omega

theorem pyClip_append_single (k : Nat) (hk : 1 ≤ k) (l : List Message) (x : Message) :
    pyClip k (pyClip k l ++ [x]) = pyClip k (l ++ [x]) := by
  by_cases h : k < l.length
  · have hk0 : ¬ k = 0 := by omega
    have hclip : pyClip k l = l.drop (l.length - k) := by
      unfold pyClip pySliceLastNeg
      rw [if_pos h, if_neg hk0]
    have hlen : (l.drop (l.length - k)).length = k := by
      simp only [List.length_drop]
      omega
    rw [hclip]
    have hlen2 : (l.drop (l.length - k) ++ [x]).length = k + 1 := by
      simp only [List.length_append, List.length_drop, List.length_cons, List.length_nil]
      omega
    have hlen3 : (l ++ [x]).length = l.length + 1 := by
      simp only [List.length_append, List.length_cons, List.length_nil]
    have hL : pyClip k (l.drop (l.length - k) ++ [x]) =
        (l.drop (l.length - k) ++ [x]).drop 1 := by
      unfold pyClip pySliceLastNeg
      rw [hlen2, if_pos (by omega), if_neg hk0]
      congr 1
      omega
    have hR : pyClip k (l ++ [x]) = (l ++ [x]).drop (l.length + 1 - k) := by
      unfold pyClip pySliceLastNeg
      rw [hlen3, if_pos (by omega), if_neg hk0]
    rw [hL, hR]
    rw [List.drop_append_of_le_length (by omega), List.drop_drop,
      List.drop_append_of_le_length (by omega)]
    congr 2
    omega
  · have hclip : pyClip k l = l := by
      unfold pyClip
      rw [if_neg h]
    rw [hclip]

theorem foldl_pyClip (k : Nat) (hk : 1 ≤ k) (es l : List Message) :
    es.foldl (fun acc x => pyClip k (acc ++ [x])) (pyClip k l) = pyClip k (l ++ es) := by
  induction es using List.reverseRecOn with
  | nil => rw [List.foldl_nil, List.append_nil]
  | append_singleton es e ih =>
    rw [List.foldl_append, ih, List.foldl_cons, List.foldl_nil,
      pyClip_append_single k hk, List.append_assoc]

theorem add_message_conversations (m : MemoryManager)
    (session_id role content : String) (ts : Nat) :
    (m.add_message session_id role content ts).conversations =
      fun s => if s = session_id
        then pyClip m.max_messages (m.conversations session_id ++ [⟨role, content, ts⟩])
        else m.conversations s := rfl

theorem addAll_max_messages (m : MemoryManager) (sid : String)
    (entries : List (String × String × Nat)) :
    (addAll m sid entries).max_messages = m.max_messages := by
  induction entries generalizing m with
  | nil => rfl
  | cons e es ih => exact ih _

theorem addAll_conversations (m : MemoryManager) (sid : String)
    (entries : List (String × String × Nat)) :
    (addAll m sid entries).conversations sid =
      (entries.map mkMessage).foldl
        (fun acc x => pyClip m.max_messages (acc ++ [x])) (m.conversations sid) := by
  induction entries generalizing m with
  | nil => rfl
  | cons e es ih =>
    show (addAll (m.add_message sid e.1 e.2.1 e.2.2) sid es).conversations sid = _
    rw [ih]
    simp only [add_message_conversations, if_pos rfl, List.map_cons, List.foldl_cons]
    rfl

theorem pyClip_of_le (k : Nat) (l : List Message) (h : l.length ≤ k) : pyClip k l = l := by
  unfold pyClip
  rw [if_neg (by omega)]

theorem pyClip_nil (k : Nat) : pyClip k [] = [] := by
  unfold pyClip
  rw [if_neg (by simp)]

theorem add_message_self (m : MemoryManager) (session_id role content : String) (ts : Nat) :
    (m.add_message session_id role content ts).conversations session_id =
      pyClip m.max_messages (m.conversations session_id ++ [⟨role, content, ts⟩]) := by
  simp only [add_message_conversations, if_pos]

theorem add_message_max (m : MemoryManager) (session_id role content : String) (ts : Nat) :
    (m.add_message session_id role content ts).max_messages = m.max_messages := rfl

theorem pyStrip_pyLower_empty (q : String) (h : pyStrip q = "") :
    pyStrip (pyLower q) = "" := by
  unfold pyStrip at h ⊢
  rw [string_mk_eq_empty_iff] at h ⊢
  rw [stripChars_eq_nil_iff] at h ⊢
  intro c hc
  have hmap : (pyLower q).toList = q.toList.map pyLowerChar := rfl
  rw [hmap] at hc
  obtain ⟨d, hd, rfl⟩ := List.mem_map.mp hc
  rw [isPySpace_pyLowerChar]
  exact h d hd

/-! ## Claim theorems -/

/-- Claim C3 (amended).  For a configured maximum of at least 1: for every
session and every sequence of N `add_message` calls with N greater than the
maximum, `get_context` returns exactly the most recent `max` turns in their
original insertion order (oldest evicted first, never reordered), of length
exactly `max`; and `add_message` preserves the length bound on every
session of any store satisfying it. -/
theorem add_message_fifo_bound (max : Nat) (hm : 1 ≤ max) (sid : String)
    (entries : List (String × String × Nat)) (hN : max < entries.length) :
    ((addAll (emptyManager max) sid entries).get_context sid
        = (entries.map mkMessage).drop (entries.length - max))
    ∧ ((addAll (emptyManager max) sid entries).get_context sid).length = max
    ∧ (∀ (m : MemoryManager) (s : String), 1 ≤ m.max_messages →
        (m.conversations s).length ≤ m.max_messages →
        ∀ sid2 role content ts,
          ((m.add_message sid2 role content ts).conversations s).length ≤ m.max_messages) := by
  have hmain : (addAll (emptyManager max) sid entries).get_context sid
      = (entries.map mkMessage).drop (entries.length - max) := by
    show (addAll (emptyManager max) sid entries).conversations sid = _
    rw [addAll_conversations]
    show (entries.map mkMessage).foldl
        (fun acc x => pyClip max (acc ++ [x])) ([] : List Message) = _
    have hfold := foldl_pyClip max hm (entries.map mkMessage) []
    rw [pyClip_nil, List.nil_append] at hfold
    rw [hfold]
    unfold pyClip pySliceLastNeg
    rw [if_pos (by simpa using hN), if_neg (by omega)]
    rw [List.length_map]
  refine ⟨hmain, ?_, ?_⟩
  · rw [hmain]
    simp only [List.length_drop, List.length_map]
    omega
  · intro m s hm1 hlen sid2 role content ts
    simp only [add_message_conversations]
    by_cases hs : s = sid2
    · rw [if_pos hs]
      rw [length_pyClip _ hm1]
      subst hs
      omega
    · rw [if_neg hs]
      exact hlen

/-- Witness for C3's theorem at a concrete input: maximum 1, two inserts. -/
theorem add_message_fifo_bound_witness :
    ((addAll (emptyManager 1) "s" [("user", "a", 0), ("user", "b", 1)]).get_context "s"
        = ([("user", "a", 0), ("user", "b", 1)].map mkMessage).drop
            ([("user", "a", 0), ("user", "b", 1)].length - 1))
    ∧ ((addAll (emptyManager 1) "s" [("user", "a", 0), ("user", "b", 1)]).get_context "s").length = 1
    ∧ (∀ (m : MemoryManager) (s : String), 1 ≤ m.max_messages →
        (m.conversations s).length ≤ m.max_messages →
        ∀ sid2 role content ts,
          ((m.add_message sid2 role content ts).conversations s).length ≤ m.max_messages) :=
  add_message_fifo_bound 1 (by decide) "s" [("user", "a", 0), ("user", "b", 1)] (by decide)

/-- Counterexample to claim C3 as stated: with a configured maximum of 0
(`MAX_CONVERSATION_MESSAGES=0`), one `add_message` call (N = 1 > 0) leaves a
session of length 1, not 0 — Python's `lst[-0:]` is the whole list, so the
truncation never happens and the claimed bound is violated. -/
theorem add_message_fifo_bound_counterexample :
    ((addAll (emptyManager 0) "s" [("user", "hi", 0)]).get_context "s").length ≠ 0 := by
  decide

/-- Claim C8.  `get_session_id` is deterministic (equal inputs give equal
keys), and omitting the thread identifier yields the same key as passing the
channel identifier as the thread identifier, so unthreaded messages in one
channel share a session. -/
theorem session_id_deterministic_fallback :
    (∀ u c : String, LambdaMemoryManager.get_session_id u c none =
        LambdaMemoryManager.get_session_id u c (some c))
    ∧ (∀ (u1 c1 : String) (t1 : Option String) (u2 c2 : String) (t2 : Option String),
        u1 = u2 → c1 = c2 → t1 = t2 →
        LambdaMemoryManager.get_session_id u1 c1 t1 =
          LambdaMemoryManager.get_session_id u2 c2 t2) := by
  constructor
  · intro u c
    unfold LambdaMemoryManager.get_session_id
    by_cases h : c = "" <;> simp [h]
  · intro u1 c1 t1 u2 c2 t2 hu hc ht
    rw [hu, hc, ht]

/-- Witness for C8's theorem at concrete identifiers. -/
theorem session_id_deterministic_fallback_witness :
    LambdaMemoryManager.get_session_id "U7" "C9" none =
      LambdaMemoryManager.get_session_id "U7" "C9" (some "C9") :=
  session_id_deterministic_fallback.1 "U7" "C9"

/-- Claim C5.  The intent classifier is a pure, deterministic,
case-insensitive function of the query string: it lower-cases and trims the
query and reports the oncall mode exactly when that string contains one of
the fixed trigger substrings; the empty and whitespace-only queries, and
the three concrete examples, behave as specified.  (Purity and determinism
are inherent: the classifier is a plain function of the query alone.) -/
theorem classifier_characterisation :
    (∀ q : String, _is_oncall_or_issue q = true ↔
        ∃ t ∈ triggers, ∃ pre post : List Char,
          (pyStrip (pyLower q)).toList = pre ++ (t.toList ++ post))
    ∧ _is_oncall_or_issue "" = false
    ∧ _is_oncall_or_issue "   " = false
    ∧ _is_oncall_or_issue "Fix the login bug" = true
    ∧ _is_oncall_or_issue "fix the login bug" = true
    ∧ _is_oncall_or_issue "what does the billing service do" = false := by
  refine ⟨?_, by decide, by decide, by decide, by decide, by decide⟩
  intro q
  by_cases h1 : q = ""
  · subst h1
    constructor
    · intro h
      exact absurd h (by decide)
    · rintro ⟨t, ht, pre, post, heq⟩
      have hnil : (pyStrip (pyLower "")).toList = [] := by decide
      rw [hnil] at heq
      have : t.toList = [] := by
        have := List.append_eq_nil.mp heq.symm
        exact (List.append_eq_nil.mp this.2).1
      have hne : ∀ t ∈ triggers, t.toList ≠ [] := by decide
      exact absurd this (hne t ht)
  · by_cases h2 : pyStrip q = ""
    · have hf : _is_oncall_or_issue q = false := by
        unfold _is_oncall_or_issue
        rw [h2]
        simp
      rw [hf]
      constructor
      · intro h
        exact absurd h (by decide)
      · rintro ⟨t, ht, pre, post, heq⟩
        have hs : pyStrip (pyLower q) = "" := pyStrip_pyLower_empty q h2
        rw [hs] at heq
        have hnil : ("" : String).toList = [] := rfl
        rw [hnil] at heq
        have : t.toList = [] := by
          have := List.append_eq_nil.mp heq.symm
          exact (List.append_eq_nil.mp this.2).1
        have hne : ∀ t ∈ triggers, t.toList ≠ [] := by decide
        exact absurd this (hne t ht)
    · have hg : _is_oncall_or_issue q =
          triggers.any (fun t => pyInStr t (pyStrip (pyLower q))) := by
        unfold _is_oncall_or_issue
        rw [if_neg (by simp [h1, h2])]
      rw [hg]
      simp only [List.any_eq_true, pyInStr, hasRun_iff]

/-- Witness for C5's theorem: the mixed-case example evaluates to the
oncall mode. -/
theorem classifier_characterisation_witness :
    _is_oncall_or_issue "Fix the login bug" = true :=
  classifier_characterisation.2.2.2.1

/-- Claim C1.  With read-only enforcement enabled, every invocation of
`query_codebase` — whatever the process behaviour: success, timeout,
non-zero exit, or any other exception — emits the write-permission
restoration on the repository path exactly once, and it is the last event
before the function returns. -/
theorem readonly_restored_exactly_once (query repository_path cursor_model : String)
    (timeout : Nat) (ctx : Option String) (w : World) :
    (((query_codebase query repository_path timeout ctx cursor_model true w).2.filter
        (restoresWrite repository_path)).length = 1)
    ∧ ((query_codebase query repository_path timeout ctx cursor_model true w).2.getLast?
        = some (FsEvent.unlock repository_path)) := by
  cases hb : w.behavior with
  | raises msg =>
    simp [query_codebase, hb, restoresWrite, List.filter]
  | timesOut =>
    simp [query_codebase, hb, restoresWrite, List.filter]
  | completes rc stdoutData stderrData =>
    by_cases hrc : rc = 0 <;>
      simp [query_codebase, hb, hrc, restoresWrite, List.filter]

/-- Witness for C1's theorem on a concrete timeout run. -/
theorem readonly_restored_exactly_once_witness :
    (((query_codebase "q" "/repo" 600000 none "auto" true
        ⟨ProcBehavior.timesOut, fun _ => none, fun _ => ApiOutcome.returns [], 3, 4⟩).2.filter
          (restoresWrite "/repo")).length = 1)
    ∧ ((query_codebase "q" "/repo" 600000 none "auto" true
        ⟨ProcBehavior.timesOut, fun _ => none, fun _ => ApiOutcome.returns [], 3, 4⟩).2.getLast?
          = some (FsEvent.unlock "/repo")) :=
  readonly_restored_exactly_once "q" "/repo" "auto" 600000 none
    ⟨ProcBehavior.timesOut, fun _ => none, fun _ => ApiOutcome.returns [], 3, 4⟩

/-- Claim C7.  When the analysis process exceeds the timeout,
`query_codebase` kills the process (the `kill` event follows the single
spawn — no retry) and returns a failure whose error text is exactly
`Query timeout after <timeout>ms` (naming the configured value in
milliseconds) and whose `executionTime` carries the elapsed time measured
in the handler. -/
theorem timeout_kill_and_error (query repository_path cursor_model : String)
    (timeout : Nat) (ctx : Option String) (w : World)
    (h : w.behavior = ProcBehavior.timesOut) :
    query_codebase query repository_path timeout ctx cursor_model true w =
      (QueryResult.err ("Query timeout after " ++ toString timeout ++ "ms") w.elapsedErr,
        [FsEvent.lock repository_path,
          FsEvent.spawn (cursorArgs query repository_path cursor_model ctx) repository_path,
          FsEvent.kill, FsEvent.unlock repository_path])
    ∧ (((query_codebase query repository_path timeout ctx cursor_model true w).2.filter
          isSpawn).length = 1) := by
  constructor
  · simp [query_codebase, h]
  · simp [query_codebase, h, isSpawn, List.filter]

/-- Witness for C7's theorem on a concrete world. -/
theorem timeout_kill_and_error_witness :
    query_codebase "q" "/repo" 600000 none "auto" true
        ⟨ProcBehavior.timesOut, fun _ => none, fun _ => ApiOutcome.returns [], 3, 4⟩ =
      (QueryResult.err ("Query timeout after " ++ toString 600000 ++ "ms") 4,
        [FsEvent.lock "/repo",
          FsEvent.spawn (cursorArgs "q" "/repo" "auto" none) "/repo",
          FsEvent.kill, FsEvent.unlock "/repo"]) :=
  (timeout_kill_and_error "q" "/repo" "auto" 600000 none
    ⟨ProcBehavior.timesOut, fun _ => none, fun _ => ApiOutcome.returns [], 3, 4⟩ rfl).1

/-- Claim C10.  `query_codebase` is total at its boundary: every invocation
returns a result that is either `success` with a response or failure with
an error text, each carrying an `executionTime` (a `Nat`, hence ≥ 0), and
the result is the success shape exactly when the spawned process completed
with exit code 0 — every modelled exception path is converted into a
failure result rather than escaping. -/
theorem query_result_total_shape (query repository_path cursor_model : String)
    (timeout : Nat) (ctx : Option String) (enforce : Bool) (w : World) :
    ((query_codebase query repository_path timeout ctx cursor_model enforce w).1.isSuccess = true
      ↔ ∃ stdoutData stderrData,
          w.behavior = ProcBehavior.completes 0 stdoutData stderrData)
    ∧ ((∃ r t, (query_codebase query repository_path timeout ctx cursor_model enforce w).1
          = QueryResult.ok r t)
        ∨ (∃ e t, (query_codebase query repository_path timeout ctx cursor_model enforce w).1
          = QueryResult.err e t)) := by
  cases hb : w.behavior with
  | raises msg =>
    have hres : (query_codebase query repository_path timeout ctx cursor_model enforce w).1 =
        QueryResult.err ("Failed to execute cursor-agent: " ++ msg) w.elapsedErr := by
      simp [query_codebase, hb]
    refine ⟨?_, Or.inr ⟨_, _, hres⟩⟩
    rw [hres]
    simp [QueryResult.isSuccess, hb]
  | timesOut =>
    have hres : (query_codebase query repository_path timeout ctx cursor_model enforce w).1 =
        QueryResult.err ("Query timeout after " ++ toString timeout ++ "ms") w.elapsedErr := by
      simp [query_codebase, hb]
    refine ⟨?_, Or.inr ⟨_, _, hres⟩⟩
    rw [hres]
    simp [QueryResult.isSuccess, hb]
  | completes rc stdoutData stderrData =>
    by_cases hrc : rc = 0
    · subst hrc
      have hres : (query_codebase query repository_path timeout ctx cursor_model enforce w).1 =
          QueryResult.ok
            (process_with_ai (rawFromStdout stdoutData stderrData w.parse) query ctx
              (if _is_oncall_or_issue query then some "oncall" else none) w.api)
            w.elapsedRun := by
        simp [query_codebase, hb]
      refine ⟨?_, Or.inl ⟨_, _, hres⟩⟩
      rw [hres]
      simp [QueryResult.isSuccess, hb]
    · have hres : (query_codebase query repository_path timeout ctx cursor_model enforce w).1 =
          QueryResult.err
            (pyOrStr stderrData ("Process exited with code " ++ toString rc)) w.elapsedRun := by
        simp only [query_codebase, hb]
        rw [if_neg hrc]
      refine ⟨?_, Or.inr ⟨_, _, hres⟩⟩
      rw [hres]
      simp [QueryResult.isSuccess, hb, hrc]

/-- Witness for C10's theorem on a concrete zero-exit world. -/
theorem query_result_total_shape_witness :
    ((query_codebase "q" "/repo" 600000 none "auto" true
        ⟨ProcBehavior.completes 0 "out" "", fun _ => none, fun _ => ApiOutcome.returns ["f"],
          3, 4⟩).1.isSuccess = true
      ↔ ∃ stdoutData stderrData,
          (ProcBehavior.completes 0 "out" "" : ProcBehavior)
            = ProcBehavior.completes 0 stdoutData stderrData) :=
  (query_result_total_shape "q" "/repo" "auto" 600000 none true
    ⟨ProcBehavior.completes 0 "out" "", fun _ => none, fun _ => ApiOutcome.returns ["f"],
      3, 4⟩).1

theorem pyToStr_pyOr_sentinel (v : PyJson) :
    pyToStr (pyOr v (.str "No response")) =
      if pyTruthy v then pyToStr v else "No response" := by
  unfold pyOr
  by_cases h : pyTruthy v = true
  · rw [if_pos h, if_pos h]
  · rw [if_neg h, if_neg h]
    rfl

theorem rawFromStdout_eq_spec (stdoutData stderrData : String)
    (parse : String → Option (List (String × PyJson))) :
    rawFromStdout stdoutData stderrData parse =
      rawTextSpec stdoutData stderrData (parse (pyStrip stdoutData)) := by
  cases h : parse (pyStrip stdoutData) with
  | none =>
    simp only [rawFromStdout, rawTextSpec, h]
    unfold pyOrStr
    by_cases h1 : pyStrip stdoutData = "" <;> by_cases h2 : pyStrip stderrData = "" <;>
      simp [h1, h2]
  | some fields =>
    simp only [rawFromStdout, rawTextSpec, h]
    rw [pyToStr_pyOr_sentinel]
    rfl

/-- Claim C6.  On a zero exit of the analysis process, the raw text handed
to the formatter is extracted from standard output by exactly the fallback
chain stated in the specification (`rawTextSpec`, written from the spec's
words): `result` when `type` is `result`, else `response`, else `content`,
else `text`, else a pretty-printed dump, with the `No response` sentinel for
an empty choice; on a JSON parse failure, trimmed stdout, else trimmed
stderr, else `Empty response` — and the request still succeeds. -/
theorem extraction_follows_spec_chain (query repository_path cursor_model : String)
    (timeout : Nat) (ctx : Option String) (enforce : Bool) (w : World)
    (stdoutData stderrData : String)
    (hb : w.behavior = ProcBehavior.completes 0 stdoutData stderrData) :
    (query_codebase query repository_path timeout ctx cursor_model enforce w).1 =
      QueryResult.ok
        (process_with_ai (rawTextSpec stdoutData stderrData (w.parse (pyStrip stdoutData)))
          query ctx (if _is_oncall_or_issue query then some "oncall" else none) w.api)
        w.elapsedRun := by
  have hr := rawFromStdout_eq_spec stdoutData stderrData w.parse
  simp [query_codebase, hb, hr]

/-- Witness for C6's theorem: a concrete run whose stdout fails to parse as
JSON falls back to the trimmed stdout and still succeeds. -/
theorem extraction_follows_spec_chain_witness :
    (query_codebase "how" "/repo" 600000 none "auto" true
        ⟨ProcBehavior.completes 0 " raw answer " "", fun _ => none,
          fun _ => ApiOutcome.returns [], 3, 4⟩).1 =
      QueryResult.ok
        (process_with_ai (rawTextSpec " raw answer " "" none)
          "how" none (if _is_oncall_or_issue "how" then some "oncall" else none)
          (fun _ => ApiOutcome.returns [])) 3 :=
  extraction_follows_spec_chain "how" "/repo" "auto" 600000 none true
    ⟨ProcBehavior.completes 0 " raw answer " "", fun _ => none,
      fun _ => ApiOutcome.returns [], 3, 4⟩ " raw answer " "" rfl

/-- Counterexample to claim C2 as stated: when the completion API returns
no choices, `process_with_ai` returns the bare raw text without the
advisory note, so the "appended with a visible note" clause fails on that
branch (only the exception branch appends it). -/
theorem formatter_fallback_counterexample :
    process_with_ai "R" "q" none none (fun _ => ApiOutcome.returns []) = "R"
    ∧ process_with_ai "R" "q" none none (fun _ => ApiOutcome.returns []) ≠
        "R" ++ aiUnavailableNote := by
  constructor
  · rfl
  · decide

/-- Claim C2 (amended).  `process_with_ai` never propagates a
completion-API failure: when the call raises it returns the raw text plus
the fixed advisory suffix, and when the call returns no choices it returns
the raw text unchanged (without the suffix); in the enclosing
`query_codebase` request a raising API still yields `success` with the raw
text plus the suffix as the response. -/
theorem formatter_fallback_amended :
    (∀ (raw uq : String) (cctx mode : Option String) (api : String → ApiOutcome) (emsg : String),
        api (buildPrompt raw uq cctx mode) = ApiOutcome.raises emsg →
        process_with_ai raw uq cctx mode api = raw ++ aiUnavailableNote)
    ∧ (∀ (raw uq : String) (cctx mode : Option String) (api : String → ApiOutcome),
        api (buildPrompt raw uq cctx mode) = ApiOutcome.returns [] →
        process_with_ai raw uq cctx mode api = raw)
    ∧ (∀ (query repository_path cursor_model : String) (timeout : Nat)
        (ctx : Option String) (enforce : Bool) (w : World) (stdoutData stderrData emsg : String),
        w.behavior = ProcBehavior.completes 0 stdoutData stderrData →
        (∀ p, w.api p = ApiOutcome.raises emsg) →
        (query_codebase query repository_path timeout ctx cursor_model enforce w).1 =
          QueryResult.ok (rawFromStdout stdoutData stderrData w.parse ++ aiUnavailableNote)
            w.elapsedRun) := by
  refine ⟨?_, ?_, ?_⟩
  · intro raw uq cctx mode api emsg h
    unfold process_with_ai
    rw [h]
  · intro raw uq cctx mode api h
    unfold process_with_ai
    rw [h]
  · intro query repository_path cursor_model timeout ctx enforce w stdoutData stderrData emsg
      hb hapi
    simp [query_codebase, hb, process_with_ai, hapi]

/-- Witness for C2's amended theorem at concrete inputs. -/
theorem formatter_fallback_amended_witness :
    process_with_ai "R" "q" none none (fun _ => ApiOutcome.raises "boom") =
      "R" ++ aiUnavailableNote :=
  formatter_fallback_amended.1 "R" "q" none none (fun _ => ApiOutcome.raises "boom") "boom" rfl

theorem process_query_eq_ok (m : MemoryManager) (event : SlackEvent)
    (query em r : String) (tq : Nat) (analyze : String → QueryResult) (tU tA : Nat)
    (hq : query ≠ "")
    (h : analyze ((m.add_message (sessionOf event) "user" query tU).get_formatted_context
        (sessionOf event)) = QueryResult.ok r tq) :
    process_query m event query em analyze tU tA =
      ⟨(m.add_message (sessionOf event) "user" query tU).add_message (sessionOf event)
          "assistant" r tA,
        some ((m.add_message (sessionOf event) "user" query tU).get_formatted_context
          (sessionOf event)), r⟩ := by
  simp only [process_query, hq, ite_false]
  rw [h]

theorem process_query_eq_err (m : MemoryManager) (event : SlackEvent)
    (query em e : String) (tq : Nat) (analyze : String → QueryResult) (tU tA : Nat)
    (hq : query ≠ "")
    (h : analyze ((m.add_message (sessionOf event) "user" query tU).get_formatted_context
        (sessionOf event)) = QueryResult.err e tq) :
    process_query m event query em analyze tU tA =
      ⟨m.add_message (sessionOf event) "user" query tU,
        some ((m.add_message (sessionOf event) "user" query tU).get_formatted_context
          (sessionOf event)),
        "Sorry, I encountered an error: " ++ e⟩ := by
  simp only [process_query, hq, ite_false]
  rw [h]

theorem process_query_contextSent (m : MemoryManager) (event : SlackEvent)
    (query em : String) (analyze : String → QueryResult) (tU tA : Nat) (hq : query ≠ "") :
    (process_query m event query em analyze tU tA).contextSent =
      some ((m.add_message (sessionOf event) "user" query tU).get_formatted_context
        (sessionOf event)) := by
  simp only [process_query, hq, ite_false]
  cases analyze ((m.add_message (sessionOf event) "user" query tU).get_formatted_context
    (sessionOf event)) <;> rfl

theorem process_query_store_ok (m : MemoryManager) (event : SlackEvent)
    (query em r : String) (tq : Nat) (analyze : String → QueryResult) (tU tA : Nat)
    (hq : query ≠ "")
    (h : analyze ((m.add_message (sessionOf event) "user" query tU).get_formatted_context
        (sessionOf event)) = QueryResult.ok r tq) :
    (process_query m event query em analyze tU tA).store =
      (m.add_message (sessionOf event) "user" query tU).add_message (sessionOf event)
        "assistant" r tA := by
  rw [process_query_eq_ok m event query em r tq analyze tU tA hq h]

/-- Claim C9.  On an analysis failure (timeout, non-zero exit, or any other
exception) `query_codebase` hands the caller a failure result with an error
text and execution time; `process_query` then replies with the error and
leaves the store with only the user turn appended — no assistant turn; and
on success the assistant turn is appended strictly after the user turn of
the same request. -/
theorem invocation_failure_handling (m : MemoryManager) (event : SlackEvent)
    (query em : String) (analyze : String → QueryResult) (tU tA : Nat)
    (hq : query ≠ "") :
    (∀ e t, analyze ((m.add_message (sessionOf event) "user" query tU).get_formatted_context
          (sessionOf event)) = QueryResult.err e t →
        process_query m event query em analyze tU tA =
          ⟨m.add_message (sessionOf event) "user" query tU,
            some ((m.add_message (sessionOf event) "user" query tU).get_formatted_context
              (sessionOf event)),
            "Sorry, I encountered an error: " ++ e⟩)
    ∧ (∀ r t, analyze ((m.add_message (sessionOf event) "user" query tU).get_formatted_context
          (sessionOf event)) = QueryResult.ok r t →
        process_query m event query em analyze tU tA =
          ⟨(m.add_message (sessionOf event) "user" query tU).add_message (sessionOf event)
              "assistant" r tA,
            some ((m.add_message (sessionOf event) "user" query tU).get_formatted_context
              (sessionOf event)), r⟩)
    ∧ (∀ (repository_path cursor_model : String) (timeout : Nat) (cctx : Option String)
        (w : World),
        (∀ so se, w.behavior ≠ ProcBehavior.completes 0 so se) →
        ∃ e t, (query_codebase query repository_path timeout cctx cursor_model true w).1 =
          QueryResult.err e t) := by
  refine ⟨?_, ?_, ?_⟩
  · intro e t h
    exact process_query_eq_err m event query em e t analyze tU tA hq h
  · intro r t h
    exact process_query_eq_ok m event query em r t analyze tU tA hq h
  · intro repository_path cursor_model timeout cctx w hfail
    cases hb : w.behavior with
    | raises msg =>
      exact ⟨"Failed to execute cursor-agent: " ++ msg, w.elapsedErr,
        by simp [query_codebase, hb]⟩
    | timesOut =>
      exact ⟨"Query timeout after " ++ toString timeout ++ "ms", w.elapsedErr,
        by simp [query_codebase, hb]⟩
    | completes rc so se =>
      by_cases hrc : rc = 0
      · subst hrc
        exact absurd hb (hfail so se)
      · refine ⟨pyOrStr se ("Process exited with code " ++ toString rc), w.elapsedRun, ?_⟩
        simp only [query_codebase, hb]
        rw [if_neg hrc]

/-- Witness for C9's theorem: a failed invocation on a concrete store and
event leaves exactly the user turn and yields the error reply. -/
theorem invocation_failure_handling_witness :
    process_query (emptyManager 10) ⟨"C1", "111.22", none⟩ "hello" "em"
        (fun _ => QueryResult.err "boom" 5) 1 2 =
      ⟨(emptyManager 10).add_message (sessionOf ⟨"C1", "111.22", none⟩) "user" "hello" 1,
        some (((emptyManager 10).add_message (sessionOf ⟨"C1", "111.22", none⟩) "user"
            "hello" 1).get_formatted_context (sessionOf ⟨"C1", "111.22", none⟩)),
        "Sorry, I encountered an error: " ++ "boom"⟩ :=
  (invocation_failure_handling (emptyManager 10) ⟨"C1", "111.22", none⟩ "hello" "em"
    (fun _ => QueryResult.err "boom" 5) 1 2 (by decide)).1 "boom" 5 rfl

/-- Counterexample to claim C4 as stated: after one completed
query/response cycle in a session, the context rendered for the second
invocation contains TWO `User:` lines (the second request's user turn is
recorded before the context is rendered), not exactly one. -/
theorem second_invocation_context_counterexample :
    (process_query
        (process_query (emptyManager 10) ⟨"C1", "111.22", none⟩ "hello" "em"
          (fun _ => QueryResult.ok "world" 5) 1 2).store
        ⟨"C1", "111.22", none⟩ "again" "em" (fun _ => QueryResult.ok "x" 9) 3 4).contextSent =
      some "User: hello\nAssistant: world\nUser: again"
    ∧ labelLineCount "User:" "User: hello\nAssistant: world\nUser: again" = 2
    ∧ labelLineCount "Assistant:" "User: hello\nAssistant: world\nUser: again" = 1 := by
  refine ⟨by decide, by decide, by decide⟩

/-- Claim C4 (amended).  In one session, after one completed
query/response cycle, the rendered conversation context supplied to the
second invocation consists of the first turn's `User:` line and
`Assistant:` line in that order, followed by a `User:` line for the second
query itself — two `User:` lines and one `Assistant:` line — because the
orchestrator records the user turn before rendering the context.  (Holds
whenever both queries are non-empty and the configured maximum is at least
3.) -/
theorem second_invocation_context_amended (q1 q2 r1 em1 em2 : String)
    (h1 : q1 ≠ "") (h2 : q2 ≠ "") (max : Nat) (hm : 3 ≤ max) (event : SlackEvent)
    (a2 : String → QueryResult) (tr t1 t2 t3 t4 : Nat) :
    (process_query
        (process_query (emptyManager max) event q1 em1 (fun _ => QueryResult.ok r1 tr)
          t1 t2).store
        event q2 em2 a2 t3 t4).contextSent =
      some (joinLines ["User: " ++ q1, "Assistant: " ++ r1, "User: " ++ q2]) := by
  have hc1 : ((emptyManager max).add_message (sessionOf event) "user" q1 t1).conversations
      (sessionOf event) = [⟨"user", q1, t1⟩] := by
    rw [add_message_self]
    show pyClip max ([] ++ [⟨"user", q1, t1⟩]) = _
    rw [List.nil_append, pyClip_of_le _ _ (by simp; omega)]
  have hc2 : (((emptyManager max).add_message (sessionOf event) "user" q1 t1).add_message
      (sessionOf event) "assistant" r1 t2).conversations (sessionOf event) =
      [⟨"user", q1, t1⟩, ⟨"assistant", r1, t2⟩] := by
    rw [add_message_self, add_message_max, hc1]
    show pyClip max _ = _
    rw [pyClip_of_le _ _ (by simp; omega)]
    rfl
  have hc3 : ((((emptyManager max).add_message (sessionOf event) "user" q1 t1).add_message
      (sessionOf event) "assistant" r1 t2).add_message (sessionOf event) "user" q2 t3).conversations
      (sessionOf event) =
      [⟨"user", q1, t1⟩, ⟨"assistant", r1, t2⟩, ⟨"user", q2, t3⟩] := by
    rw [add_message_self, add_message_max, add_message_max, hc2]
    show pyClip max _ = _
    rw [pyClip_of_le _ _ (by simp; omega)]
    rfl
  rw [process_query_store_ok (emptyManager max) event q1 em1 r1 tr _ t1 t2 h1 rfl]
  rw [process_query_contextSent _ event q2 em2 a2 t3 t4 h2]
  congr 1
  simp only [MemoryManager.get_formatted_context, MemoryManager.get_context]
  rw [hc3]
  rfl

/-- Witness for C4's amended theorem at concrete inputs. -/
theorem second_invocation_context_amended_witness :
    (process_query
        (process_query (emptyManager 10) ⟨"C1", "111.22", none⟩ "hello" "em"
          (fun _ => QueryResult.ok "world" 5) 1 2).store
        ⟨"C1", "111.22", none⟩ "again" "em" (fun _ => QueryResult.ok "x" 9) 3 4).contextSent =
      some (joinLines ["User: " ++ "hello", "Assistant: " ++ "world", "User: " ++ "again"]) :=
  second_invocation_context_amended "hello" "again" "world" "em" "em" (by decide) (by decide)
    10 (by decide) ⟨"C1", "111.22", none⟩ (fun _ => QueryResult.ok "x" 9) 5 1 2 3 4
